import Mathlib

/-
  Verification model of the AI Tab Organizer extension
  (background service worker, popup progress model, provider adapters).

  The definitions below are shallow embeddings of the JavaScript source:
  - src/Extension/options.js (background service worker part): the job
    pipelines organizeTabsAndClose, closeLowImportance, organizeTabsGeneric,
    undoLastAction, the debug helpers, the message listener and the
    per-provider analyzers analyzeTabsWithGemini / analyzeTabsWithOpenAI /
    analyzeTabsWithClaude;
  - src/unnamed/part_001 (popup): the weighted progress computation
    computePercent and the progress message handler.

  Asynchronous host (chrome.*) calls are modelled by an environment record
  that fixes, for one run, the live tab list, the analysis result returned
  by the provider router (the adapters never reject), and the success or
  failure of each individual host call.  JavaScript try/catch structure is
  translated branch by branch.
-/

namespace TabOrganizer

/-- A browser tab as the background worker sees it (chrome.tabs.Tab fields
actually used by the source). -/
structure Tab where
  id : Nat
  url : String
  title : String
  windowId : Nat
  index : Nat
  active : Bool
  pinned : Bool
deriving DecidableEq

/-- Pre-removal metadata captured for Undo (closedTabsMeta entries). -/
structure ClosedTabMeta where
  url : String
  windowId : Nat
  index : Nat
  active : Bool
  pinned : Bool
deriving DecidableEq

/-- The `type` field of the persisted lastAction record.  The source uses
the strings "close", "organize", "group" and "none". -/
inductive ActionType
  | close
  | organize
  | group
  | none
deriving DecidableEq

/-- The single-slot lastAction record persisted by setLastAction. -/
structure LastAction where
  type : ActionType
  closedTabs : List ClosedTabMeta
  groupedTabIds : List (List Nat)
  timestamp : Nat
deriving DecidableEq

/-- Background worker mutable state: the module-level isProcessing flag and
the chrome.storage.local lastAction slot. -/
structure BgState where
  isProcessing : Bool
  lastAction : Option LastAction
deriving DecidableEq

/-- One suggested tab group of a classification result. -/
structure TabGroup where
  name : String
  color : String
  tabIds : List Nat
deriving DecidableEq

/-- A classification result after the adapters sanitized it
(tabsToClose and tabGroups are always arrays). -/
structure Analysis where
  tabsToClose : List Nat
  tabGroups : List TabGroup
  reasoning : String
deriving DecidableEq

/-- Environment for one pipeline run: the live tab world, the analysis the
provider router resolves with, and the outcome of every fallible host
call.  Boolean fields are success flags of the corresponding awaits;
per-unit oracles are indexed by tab id or by loop position. -/
structure Env where
  storageGetOk : Bool
  queryOk : Bool
  tabs : List Tab
  analysis : Analysis
  removeOk : Nat → Bool
  groupOk : Nat → Bool
  storageSetOk : Bool
  storageReadOk : Bool
  storageClearOk : Bool
  ungroupOk : Nat → Bool
  reopenOk : Nat → Bool
  recentTouch : Nat → Option Nat
  nowTs : Nat
  currentActiveId : Option Nat
  bulkRemoveOk : Bool
  storedAutoClose : Bool
  debugUrls : List String
  createOk : Nat → Bool

/-- Substring test on character lists (JavaScript String.prototype.includes). -/
def containsSub (pat : List Char) : List Char → Bool
  | [] => pat.isPrefixOf []
  | c :: t => pat.isPrefixOf (c :: t) || containsSub pat t

/-- url.includes on strings. -/
def strIncludes (s pat : String) : Bool :=
  containsSub pat.toList s.toList

/-- The protected-page test of the safety filter:
url.startsWith("chrome://") || url.startsWith("chrome-extension://") ||
url === "about:blank" || url.includes("newtab"). -/
def protectedUrl (url : String) : Bool :=
  url.startsWith "chrome://" || url.startsWith "chrome-extension://" ||
  url == "about:blank" || strIncludes url "newtab"

/-- idToTab.get: the JavaScript Map is filled by forEach set, so a later
tab with the same id overwrites an earlier one. -/
def lookupTab (tabs : List Tab) (tid : Nat) : Option Tab :=
  tabs.reverse.find? (fun t => t.id == tid)

/-- protectActive.has(tid): tid is the id of some active tab. -/
def isActiveId (tabs : List Tab) (tid : Nat) : Bool :=
  tabs.any (fun t => t.active && t.id == tid)

/-- The filter predicate applied to analysis.tabsToClose in
organizeTabsGeneric (and identically in organizeTabsWithGemini):
drop ids whose tab no longer exists, active tabs, protected urls, and tabs
touched less than 30000 ms before nowTs (a truthy, i.e. nonzero, entry in
the recentTouch map). -/
def keepForClose (tabs : List Tab) (recentTouch : Nat → Option Nat)
    (nowTs : Nat) (tid : Nat) : Bool :=
  match lookupTab tabs tid with
  | Option.none => false
  | some original =>
    if isActiveId tabs tid then false
    else if protectedUrl original.url then false
    else
      match recentTouch tid with
      | some touched =>
          if touched ≠ 0 ∧ nowTs - touched < 30000 then false else true
      | Option.none => true

/-- The safety filter: analysis.tabsToClose.filter(...) as in
organizeTabsGeneric. -/
def filterTabsToClose (ids : List Nat) (tabs : List Tab)
    (recentTouch : Nat → Option Nat) (nowTs : Nat) : List Nat :=
  ids.filter (keepForClose tabs recentTouch nowTs)

/-- The close loop shared by every closing pipeline: for each id, push the
pre-removal metadata when the tab exists and has a truthy url, then attempt
chrome.tabs.remove; a throwing removal is skipped (the metadata stays
pushed, as in the source where the push happens before the await). Returns
(closedTabsMeta, ids actually removed). -/
def closeLoop (tabs : List Tab) (removeOk : Nat → Bool) :
    List Nat → List ClosedTabMeta × List Nat
  | [] => ([], [])
  | tid :: rest =>
    let metaHere : List ClosedTabMeta :=
      match lookupTab tabs tid with
      | some original =>
          if original.url ≠ "" then
            [⟨original.url, original.windowId, original.index,
              original.active, original.pinned⟩]
          else []
      | Option.none => []
    let removedHere : List Nat := if removeOk tid then [tid] else []
    let rec_ := closeLoop tabs removeOk rest
    (metaHere ++ rec_.1, removedHere ++ rec_.2)

/-- The group loop: groups with an empty tabIds list are skipped; for the
rest, chrome.tabs.group + chrome.tabGroups.update may throw (oracle indexed
by position in analysis.tabGroups); on success the batch is recorded.
Returns groupedTabIds. -/
def groupLoop (groupOk : Nat → Bool) : Nat → List TabGroup → List (List Nat)
  | _, [] => []
  | i, g :: rest =>
    if g.tabIds.isEmpty then groupLoop groupOk (i + 1) rest
    else if groupOk i then g.tabIds :: groupLoop groupOk (i + 1) rest
    else groupLoop groupOk (i + 1) rest

/-- The lastAction type computed at the end of organizeTabsAndClose,
organizeTabsGeneric and organizeTabsWithGemini:
autoClose ? (groupedTabIds.length ? "organize" : "close")
          : (groupedTabIds.length ? "group" : "none"). -/
def recordedType (autoClose : Bool) (groupedTabIds : List (List Nat)) :
    ActionType :=
  if autoClose then
    if groupedTabIds.length ≠ 0 then ActionType.organize else ActionType.close
  else
    if groupedTabIds.length ≠ 0 then ActionType.group else ActionType.none

/-- Result of one closing/organizing pipeline run. -/
structure RunOut where
  state : BgState
  removedIds : List Nat
  groupedBatches : List (List Nat)
  events : List String
deriving DecidableEq

/-- organizeTabsAndClose: the interactive organize pipeline.  It rejects
silently while isProcessing; its try block awaits chrome.storage.sync.get
and chrome.tabs.query unguarded (failure reaches the catch, which emits an
error event; the finally clears isProcessing); it applies NO safety filter
to analysis.tabsToClose; settings.autoClose overrides the stored flag. -/
def organizeTabsAndCloseRun (st : BgState) (autoCloseOverride : Option Bool)
    (env : Env) : RunOut :=
  if st.isProcessing then ⟨st, [], [], []⟩
  else if !env.storageGetOk || !env.queryOk then
    ⟨⟨false, st.lastAction⟩, [], [], ["start", "error"]⟩
  else
    let autoClose := autoCloseOverride.getD env.storedAutoClose
    let closed :=
      if autoClose then closeLoop env.tabs env.removeOk env.analysis.tabsToClose
      else ([], [])
    let batches := groupLoop env.groupOk 0 env.analysis.tabGroups
    let la :=
      if env.storageSetOk then
        some (⟨recordedType autoClose batches, closed.1, batches, env.nowTs⟩ :
          LastAction)
      else st.lastAction
    ⟨⟨false, la⟩, closed.2, batches,
      ["start", "tabs_collected"] ++ env.tabs.map (fun _ => "extract_progress")
        ++ ["ai_request", "ai_response"]
        ++ (if autoClose then
              closed.2.map (fun _ => "closing_progress") ++ ["closing_done"]
            else [])
        ++ (if env.analysis.tabGroups.isEmpty then []
            else batches.map (fun _ => "group_progress") ++ ["grouping_done"])
        ++ ["complete"]⟩

/-- closeLowImportance: the close-only pipeline.  Same structure, always
closes (no autoClose gate), never groups, applies NO safety filter, and
always records type "close". -/
def closeLowImportanceRun (st : BgState) (env : Env) : RunOut :=
  if st.isProcessing then ⟨st, [], [], []⟩
  else if !env.storageGetOk || !env.queryOk then
    ⟨⟨false, st.lastAction⟩, [], [], ["start", "error"]⟩
  else
    let closed := closeLoop env.tabs env.removeOk env.analysis.tabsToClose
    let la :=
      if env.storageSetOk then
        some (⟨ActionType.close, closed.1, [], env.nowTs⟩ : LastAction)
      else st.lastAction
    ⟨⟨false, la⟩, closed.2, [],
      ["start", "tabs_collected"] ++ env.tabs.map (fun _ => "extract_progress")
        ++ ["ai_request", "ai_response"]
        ++ closed.2.map (fun _ => "closing_progress")
        ++ ["closing_done", "complete"]⟩

/-- organizeTabsGeneric: the pipeline behind the automatic trigger.  Unlike
the two interactive pipelines it DOES filter analysis.tabsToClose through
the safety filter before the close loop.  Provider keys and models are
parameters in the source and do not influence this model beyond the
analysis result carried by the environment. -/
def organizeTabsGenericRun (st : BgState) (autoClose : Bool) (env : Env) :
    RunOut :=
  if st.isProcessing then ⟨st, [], [], []⟩
  else if !env.queryOk then
    ⟨⟨false, st.lastAction⟩, [], [], ["start", "error"]⟩
  else
    let filtered :=
      filterTabsToClose env.analysis.tabsToClose env.tabs env.recentTouch
        env.nowTs
    let closed :=
      if autoClose then closeLoop env.tabs env.removeOk filtered else ([], [])
    let batches := groupLoop env.groupOk 0 env.analysis.tabGroups
    let la :=
      if env.storageSetOk then
        some (⟨recordedType autoClose batches, closed.1, batches, env.nowTs⟩ :
          LastAction)
      else st.lastAction
    ⟨⟨false, la⟩, closed.2, batches,
      ["start", "tabs_collected"] ++ env.tabs.map (fun _ => "extract_progress")
        ++ ["ai_request", "ai_response"]
        ++ (if autoClose then
              closed.2.map (fun _ => "closing_progress") ++ ["closing_done"]
            else [])
        ++ (if env.analysis.tabGroups.isEmpty then []
            else batches.map (fun _ => "group_progress") ++ ["grouping_done"])
        ++ ["complete"]⟩

/-- Outcome classification of one undoLastAction run. -/
inductive UndoOutcome
  | busy
  | nothingToUndo
  | completed
deriving DecidableEq

/-- Result of one undoLastAction run. -/
structure UndoOut where
  state : BgState
  outcome : UndoOutcome
  events : List String
  errorMessage : Option String
deriving DecidableEq

/-- undoLastAction: rejects silently while isProcessing; reads the journal
(getLastAction returns null when the storage read fails); a missing record
or a record of type "none" yields the error event with message
"Nothing to undo." and leaves the journal untouched; otherwise it ungroups
every recorded batch (best-effort), reopens every recorded tab
(best-effort), then clears the journal (clearLastAction swallows its own
failure, in which case the slot survives). -/
def undoLastActionRun (st : BgState) (env : Env) : UndoOut :=
  if st.isProcessing then ⟨st, UndoOutcome.busy, [], Option.none⟩
  else
    let action := if env.storageReadOk then st.lastAction else Option.none
    match action with
    | Option.none =>
        ⟨⟨false, st.lastAction⟩, UndoOutcome.nothingToUndo,
          ["undo_start", "error"], some "Nothing to undo."⟩
    | some a =>
      if a.type = ActionType.none then
        ⟨⟨false, st.lastAction⟩, UndoOutcome.nothingToUndo,
          ["undo_start", "error"], some "Nothing to undo."⟩
      else
        let ungroupEvents :=
          if a.groupedTabIds.isEmpty then []
          else ((List.range a.groupedTabIds.length).filter env.ungroupOk).map
              (fun _ => "undo_grouping_progress") ++ ["undo_grouping_done"]
        let reopenEvents :=
          if a.closedTabs.isEmpty then []
          else ((List.range a.closedTabs.length).filter env.reopenOk).map
              (fun _ => "undo_reopen_progress") ++ ["undo_reopen_done"]
        let la := if env.storageClearOk then Option.none else st.lastAction
        ⟨⟨false, la⟩, UndoOutcome.completed,
          ["undo_start"] ++ ungroupEvents ++ reopenEvents ++ ["undo_complete"],
          Option.none⟩

/-- t.id !== currentId, where currentId may be undefined (no active tab in
the current window). -/
def notCurrentId (cur : Option Nat) (t : Tab) : Bool :=
  match cur with
  | some cid => t.id ≠ cid
  | Option.none => true

/-- Result of one debugCloseAllTabs run. -/
structure DebugOut where
  state : BgState
  removedIds : List Nat
deriving DecidableEq

/-- debugCloseAllTabs: performs no isProcessing check at all.  It closes
every tab except the current one with a single bulk chrome.tabs.remove (a
throwing bulk remove reaches the catch before setLastAction), then
overwrites the journal with a "close" record. -/
def debugCloseAllTabsRun (st : BgState) (env : Env) : DebugOut :=
  if !env.queryOk then ⟨st, []⟩
  else
    let toClose :=
      (env.tabs.filter (notCurrentId env.currentActiveId)).map Tab.id
    let meta :=
      (env.tabs.filter
          (fun t => notCurrentId env.currentActiveId t && t.url ≠ "")).map
        (fun t =>
          (⟨t.url, t.windowId, t.index, t.active, t.pinned⟩ : ClosedTabMeta))
    if toClose.isEmpty then
      ⟨⟨st.isProcessing,
          if env.storageSetOk then
            some (⟨ActionType.close, meta, [], env.nowTs⟩ : LastAction)
          else st.lastAction⟩, []⟩
    else if env.bulkRemoveOk then
      ⟨⟨st.isProcessing,
          if env.storageSetOk then
            some (⟨ActionType.close, meta, [], env.nowTs⟩ : LastAction)
          else st.lastAction⟩, toClose⟩
    else ⟨st, []⟩

/-- createDebugTabs: performs no isProcessing check and touches no worker
state; env.debugUrls stands for the randomly shuffled url selection and
createOk for the per-creation success.  Returns the urls actually opened. -/
def createDebugTabsRun (st : BgState) (env : Env) : BgState × List String :=
  (st, (env.debugUrls.enum.filter (fun p => env.createOk p.1)).map Prod.snd)

/-- Requests the popup can send to the background message listener. -/
inductive Request
  | organizeTabsAndClose (autoCloseOverride : Option Bool)
  | closeLowImportance
  | undoLastAction
  | debugCreateTabs
  | debugCloseAllTabs
  | getTabCount
  | unknown
deriving DecidableEq

/-- The sendResponse payloads of the listener: success responses, the tab
count, or the unknown-action failure. -/
inductive Resp
  | success (b : Bool)
  | count (n : Nat)
deriving DecidableEq

/-- chrome.runtime.onMessage listener: every pipeline action awaits its
pipeline and then responds success true, whether or not the pipeline
actually ran (the busy early-return is invisible to the caller). -/
def handleMessage (st : BgState) (env : Env) (req : Request) :
    BgState × Resp :=
  match req with
  | Request.organizeTabsAndClose o =>
      ((organizeTabsAndCloseRun st o env).state, Resp.success true)
  | Request.closeLowImportance =>
      ((closeLowImportanceRun st env).state, Resp.success true)
  | Request.undoLastAction =>
      ((undoLastActionRun st env).state, Resp.success true)
  | Request.debugCreateTabs => ((createDebugTabsRun st env).1, Resp.success true)
  | Request.debugCloseAllTabs =>
      ((debugCloseAllTabsRun st env).state, Resp.success true)
  | Request.getTabCount => (st, Resp.count env.tabs.length)
  | Request.unknown => (st, Resp.success false)

/-! ### Popup progress model (src/unnamed/part_001) -/

/-- The popup progress-calculation state (the prog object). -/
structure ProgState where
  totalTabs : Nat
  extracted : Nat
  aiStarted : Bool
  aiDone : Bool
  closingTotal : Nat
  closingDone : Nat
  groupingTotal : Nat
  groupingDone : Nat
deriving DecidableEq

/-- The reset state installed when a run starts (all counters zero). -/
def initProg : ProgState := ⟨0, 0, false, false, 0, 0, 0, 0⟩

/-- computePercent: stage weights extract 0.50, ai 0.10, closing 0.20,
grouping 0.20; a stage whose total is still 0 counts as complete (the
closingTotal === 0 ? 1 : 0 ternary; totals are naturals, so the 0 branch
is unreachable); the ai share is 0 before the request, 0.5 while pending
and 1 when done.  The result is the weighted sum times 100. -/
def computePercent (p : ProgState) : ℚ :=
  let extractPct : ℚ :=
    if p.totalTabs > 0 then (p.extracted : ℚ) / (p.totalTabs : ℚ) else 0
  let aiPct : ℚ := if p.aiDone then 1 else if p.aiStarted then 1 / 2 else 0
  let closingPct : ℚ :=
    if p.closingTotal > 0 then (p.closingDone : ℚ) / (p.closingTotal : ℚ)
    else 1
  let groupingPct : ℚ :=
    if p.groupingTotal > 0 then (p.groupingDone : ℚ) / (p.groupingTotal : ℚ)
    else 1
  (extractPct * (50 / 100) + aiPct * (10 / 100) + closingPct * (20 / 100) +
    groupingPct * (20 / 100)) * 100

/-- JavaScript Math.round (round half toward positive infinity). -/
def jsRound (q : ℚ) : ℤ := ⌊q + 1 / 2⌋

/-- setPercent clamps the rounded value into 0..100 before displaying. -/
def setPercentValue (q : ℚ) : ℤ := max 0 (min 100 (jsRound q))

/-- The progress messages the background worker broadcasts, with the
payload fields the popup handler reads. -/
inductive Msg
  | start
  | tabsCollected (total : Nat)
  | extractProgress (completed : Nat)
  | aiRequest
  | aiResponse (tabsToClose groups : Nat)
  | closingProgress (closed total : Nat)
  | closingDoneMsg
  | groupProgress (grouped total : Nat)
  | groupingDoneMsg
  | complete
  | errorMsg
  | undoStart
  | undoGroupingProgress (processed total : Nat)
  | undoGroupingDone
  | undoReopenProgress (reopened total : Nat)
  | undoReopenDone
  | undoComplete
deriving DecidableEq

/-- One step of the popup onMessage handler: the new prog state and the
percentages displayed by the setPercent calls of that case, in order.
Details mirrored from the source: a falsy (zero) completed/closed/grouped
payload keeps the previous counter; closing_progress and group_progress
max their total into the state; ai_response displays BEFORE installing the
new closing/grouping totals; complete and undo_complete display the
computed percentage and then force 100. -/
def popupStep (p : ProgState) (m : Msg) : ProgState × List ℤ :=
  match m with
  | Msg.start => (p, [setPercentValue (computePercent p)])
  | Msg.tabsCollected total =>
      let p2 := { p with totalTabs := total }
      (p2, [setPercentValue (computePercent p2)])
  | Msg.extractProgress completed =>
      let p2 :=
        { p with extracted := if completed = 0 then p.extracted else completed }
      (p2, [setPercentValue (computePercent p2)])
  | Msg.aiRequest =>
      let p2 := { p with aiStarted := true }
      (p2, [setPercentValue (computePercent p2)])
  | Msg.aiResponse tabsToClose groups =>
      let p2 := { p with aiDone := true }
      let shown := setPercentValue (computePercent p2)
      let p3 := { p2 with closingTotal := tabsToClose, groupingTotal := groups }
      (p3, [shown])
  | Msg.closingProgress closed total =>
      let p2 :=
        { p with closingTotal := max p.closingTotal total,
                 closingDone := if closed = 0 then p.closingDone else closed }
      (p2, [setPercentValue (computePercent p2)])
  | Msg.closingDoneMsg => (p, [setPercentValue (computePercent p)])
  | Msg.groupProgress grouped total =>
      let p2 :=
        { p with groupingTotal := max p.groupingTotal total,
                 groupingDone := if grouped = 0 then p.groupingDone else grouped }
      (p2, [setPercentValue (computePercent p2)])
  | Msg.groupingDoneMsg => (p, [setPercentValue (computePercent p)])
  | Msg.complete => (p, [setPercentValue (computePercent p), 100])
  | Msg.errorMsg => (p, [])
  | Msg.undoStart => (p, [5])
  | Msg.undoGroupingProgress processed total =>
      (p,
        if total > 0 then
          [setPercentValue
            ((20 : ℚ) + (jsRound ((processed : ℚ) / (total : ℚ) * 20) : ℚ))]
        else [])
  | Msg.undoGroupingDone => (p, [40])
  | Msg.undoReopenProgress reopened total =>
      (p,
        if total > 0 then
          [setPercentValue
            ((50 : ℚ) + (jsRound ((reopened : ℚ) / (total : ℚ) * 45) : ℚ))]
        else [])
  | Msg.undoReopenDone => (p, [])
  | Msg.undoComplete => (p, [setPercentValue (computePercent p), 100])

/-- Fold popupStep over a message sequence, collecting every displayed
percentage in order. -/
def popupRun (p : ProgState) : List Msg → ProgState × List ℤ
  | [] => (p, [])
  | m :: rest =>
      let step := popupStep p m
      let tail := popupRun step.1 rest
      (tail.1, step.2 ++ tail.2)

/-! ### Provider adapter response handling
(analyzeTabsWithGemini / analyzeTabsWithOpenAI / analyzeTabsWithClaude) -/

/-- What JSON.parse may deliver before the sanity checks: the tabsToClose
and tabGroups fields may be missing (not arrays). -/
structure RawAnalysis where
  tabsToClose : Option (List Nat)
  tabGroups : Option (List TabGroup)
  reasoning : String
deriving DecidableEq

/-- The two sanity-check lines of every adapter: a missing array field is
replaced by an empty array. -/
def sanitizeAnalysis (p : RawAnalysis) : Analysis :=
  ⟨p.tabsToClose.getD [], p.tabGroups.getD [], p.reasoning⟩

/-- The opening brace character. -/
def lbrace : Char := Char.ofNat 123

/-- The closing brace character. -/
def rbrace : Char := Char.ofNat 125

/-- text.indexOf of the opening brace (none for -1). -/
def firstBrace (text : List Char) : Option Nat :=
  List.findIdx? (fun c => c == lbrace) text

/-- text.lastIndexOf of the closing brace (none for -1). -/
def lastBrace (text : List Char) : Option Nat :=
  match List.findIdx? (fun c => c == rbrace) text.reverse with
  | some k => some (text.length - 1 - k)
  | Option.none => Option.none

/-- The start >= 0 && end > start recovery: text.slice(start, end + 1),
none when no such brace pair exists. -/
def extractJsonSlice (text : List Char) : Option (List Char) :=
  match firstBrace text, lastBrace text with
  | some s, some e =>
      if s < e then some ((text.drop s).take (e + 1 - s)) else Option.none
  | _, _ => Option.none

/-- The parse block every adapter repeats verbatim: try JSON.parse on the
whole text; on failure try JSON.parse on the brace-to-brace slice; if no
such slice exists or the retry fails, the adapter throws (handled by its
own catch).  jsonParse stands for the host JSON.parse restricted to the
expected result shape. -/
def parseWithRecovery (jsonParse : List Char → Option RawAnalysis)
    (text : List Char) : Option RawAnalysis :=
  match jsonParse text with
  | some p => some p
  | Option.none =>
    match extractJsonSlice text with
    | some sub => jsonParse sub
    | Option.none => Option.none

/-- The catch-all fallback of each adapter: no removals, one catch-all
"All Tabs" purple group over all input ids, and the literal
provider-specific rationale string of that adapter. -/
def fallbackAnalysis (rationale : String) (inputIds : List Nat) : Analysis :=
  ⟨[], [⟨"All Tabs", "purple", inputIds⟩], rationale⟩

/-- analyzeTabsWithGemini on a drawn response: httpOk is res.ok, text the
candidate text of the response envelope.  Always resolves: an HTTP error or
an unrecoverable parse yields the Gemini fallback. -/
def analyzeTabsWithGeminiRun (httpOk : Bool) (text : List Char)
    (jsonParse : List Char → Option RawAnalysis) (inputIds : List Nat) :
    Analysis :=
  if httpOk then
    match parseWithRecovery jsonParse text with
    | some p => sanitizeAnalysis p
    | Option.none => fallbackAnalysis "Gemini error - basic grouping applied" inputIds
  else fallbackAnalysis "Gemini error - basic grouping applied" inputIds

/-- analyzeTabsWithOpenAI: identical handling, OpenAI fallback string. -/
def analyzeTabsWithOpenAIRun (httpOk : Bool) (text : List Char)
    (jsonParse : List Char → Option RawAnalysis) (inputIds : List Nat) :
    Analysis :=
  if httpOk then
    match parseWithRecovery jsonParse text with
    | some p => sanitizeAnalysis p
    | Option.none => fallbackAnalysis "OpenAI error - basic grouping applied" inputIds
  else fallbackAnalysis "OpenAI error - basic grouping applied" inputIds

/-- analyzeTabsWithClaude: identical handling, Claude fallback string. -/
def analyzeTabsWithClaudeRun (httpOk : Bool) (text : List Char)
    (jsonParse : List Char → Option RawAnalysis) (inputIds : List Nat) :
    Analysis :=
  if httpOk then
    match parseWithRecovery jsonParse text with
    | some p => sanitizeAnalysis p
    | Option.none => fallbackAnalysis "Claude error - basic grouping applied" inputIds
  else fallbackAnalysis "Claude error - basic grouping applied" inputIds

/-! ### Helper lemmas -/

/-- The ids actually removed by the close loop are exactly the attempted
ids whose chrome.tabs.remove succeeded, in order. -/
theorem closeLoop_snd_eq_filter (tabs : List Tab) (removeOk : Nat → Bool) :
    ∀ ids : List Nat, (closeLoop tabs removeOk ids).2 = ids.filter removeOk := by
  intro ids
  induction ids with
  | nil => rfl
  | cons tid rest ih =>
    simp only [closeLoop, List.filter_cons]
    by_cases hr : removeOk tid = true
    · simp [hr, ih]
    · simp [hr, ih]

/-- An id the safety filter keeps names an existing, non-active,
non-protected tab that was not recently touched. -/
theorem keepForClose_props (tabs : List Tab) (rt : Nat → Option Nat)
    (now tid : Nat) (h : keepForClose tabs rt now tid = true) :
    isActiveId tabs tid = false ∧
    (∃ t, lookupTab tabs tid = some t ∧ protectedUrl t.url = false) ∧
    (∀ touched, rt tid = some touched →
        touched = 0 ∨ 30000 ≤ now - touched) := by
  unfold keepForClose at h
  cases hl : lookupTab tabs tid with
  | none => rw [hl] at h; exact absurd h (by simp)
  | some t =>
    rw [hl] at h
    by_cases ha : isActiveId tabs tid
    · simp [ha] at h
    · by_cases hp : protectedUrl t.url
      · simp [ha, hp] at h
      · refine ⟨by simpa using ha, ⟨t, by simp [hl], by simpa using hp⟩, ?_⟩
        intro touched ht
        rw [ht] at h
        by_cases hc : touched ≠ 0 ∧ now - touched < 30000
        · simp [ha, hp, hc] at h
        · push_neg at hc
          by_cases h0 : touched = 0
          · exact Or.inl h0
          · exact Or.inr (hc h0)

/-- A default environment for concrete runs: every host call succeeds, no
tabs, no analysis content, empty recency map. -/
def baseEnv : Env where
  storageGetOk := true
  queryOk := true
  tabs := []
  analysis := ⟨[], [], ""⟩
  removeOk := fun _ => true
  groupOk := fun _ => true
  storageSetOk := true
  storageReadOk := true
  storageClearOk := true
  ungroupOk := fun _ => true
  reopenOk := fun _ => true
  recentTouch := fun _ => Option.none
  nowTs := 0
  currentActiveId := Option.none
  bulkRemoveOk := true
  storedAutoClose := false
  debugUrls := []
  createOk := fun _ => true

/-! ### Claim C1 -/

/-- Environment for the C1 counterexample: one open tab, which is the
active tab of its window, and a classification that asks to close it. -/
def envC1 : Env :=
  { baseEnv with
    tabs := [⟨1, "a", "A", 1, 0, true, false⟩],
    analysis := ⟨[1], [], ""⟩ }

/-- Claim C1 counterexample: the close-only pipeline closes the active tab
id 1 even though the safety filter would protect it — the filter is never
invoked on this pipeline, refuting the claim that every removing pipeline
excludes active ids. -/
theorem safetyFilterGapCloseLow :
    isActiveId envC1.tabs 1 = true ∧
    (closeLowImportanceRun ⟨false, Option.none⟩ envC1).removedIds = [1] := by
  exact ⟨rfl, rfl⟩

/-- Claim C1 (amended): only the automatic-trigger pipeline
organizeTabsGeneric runs the safety filter — every id it actually removes
is non-active, has a non-protected url and was not touched within 30 s of
now (this holds whatever analysis the environment carries, so in
particular when removeIds came from the provider fallback) — while the
interactive organize and close-only pipelines attempt to close exactly the
raw provider removeIds with no safety filtering. -/
theorem safetyFilterScope :
    (∀ (st : BgState) (autoClose : Bool) (env : Env) (tid : Nat),
        tid ∈ (organizeTabsGenericRun st autoClose env).removedIds →
          isActiveId env.tabs tid = false ∧
          (∃ t, lookupTab env.tabs tid = some t ∧ protectedUrl t.url = false) ∧
          (∀ touched, env.recentTouch tid = some touched →
              touched = 0 ∨ 30000 ≤ env.nowTs - touched)) ∧
    (∀ (st : BgState) (env : Env),
        st.isProcessing = false → env.storageGetOk = true →
        env.queryOk = true →
        (closeLowImportanceRun st env).removedIds =
          env.analysis.tabsToClose.filter env.removeOk) ∧
    (∀ (st : BgState) (env : Env),
        st.isProcessing = false → env.storageGetOk = true →
        env.queryOk = true →
        (organizeTabsAndCloseRun st (some true) env).removedIds =
          env.analysis.tabsToClose.filter env.removeOk) := by
  refine ⟨?_, ?_, ?_⟩
  · intro st autoClose env tid hmem
    unfold organizeTabsGenericRun at hmem
    by_cases hb : st.isProcessing
    · simp [hb] at hmem
    · by_cases hq : env.queryOk
      · simp only [hb, hq, if_false, if_true, Bool.not_true, if_neg,
          Bool.false_eq_true, not_false_eq_true] at hmem
        by_cases hac : autoClose
        · simp only [hac, if_true, closeLoop_snd_eq_filter] at hmem
          have h2 := List.mem_filter.mp hmem
          have h3 := List.mem_filter.mp h2.1
          exact keepForClose_props _ _ _ _ h3.2
        · simp [hac] at hmem
      · simp [hb, hq] at hmem
  · intro st env h1 h2 h3
    unfold closeLowImportanceRun
    simp [h1, h2, h3, closeLoop_snd_eq_filter]
  · intro st env h1 h2 h3
    unfold organizeTabsAndCloseRun
    simp [h1, h2, h3, closeLoop_snd_eq_filter]

/-- Environment for the C1 witness: an active tab 1 and a removable
ordinary tab 2; the provider asks to close tab 2. -/
def envC1w : Env :=
  { baseEnv with
    tabs := [⟨1, "a", "A", 1, 0, true, false⟩, ⟨2, "b", "B", 1, 1, false, false⟩],
    analysis := ⟨[2], [], ""⟩,
    nowTs := 100000 }

/-- Witness for the amended C1 theorem at a concrete run. -/
theorem safetyFilterScope_witness :
    (isActiveId envC1w.tabs 2 = false ∧
      (∃ t, lookupTab envC1w.tabs 2 = some t ∧ protectedUrl t.url = false) ∧
      (∀ touched, envC1w.recentTouch 2 = some touched →
          touched = 0 ∨ 30000 ≤ envC1w.nowTs - touched)) ∧
    (closeLowImportanceRun ⟨false, Option.none⟩ envC1w).removedIds =
      envC1w.analysis.tabsToClose.filter envC1w.removeOk ∧
    (organizeTabsAndCloseRun ⟨false, Option.none⟩ (some true) envC1w).removedIds =
      envC1w.analysis.tabsToClose.filter envC1w.removeOk :=
  ⟨safetyFilterScope.1 ⟨false, Option.none⟩ true envC1w 2 (by decide),
    safetyFilterScope.2.1 ⟨false, Option.none⟩ envC1w rfl rfl rfl,
    safetyFilterScope.2.2 ⟨false, Option.none⟩ envC1w rfl rfl rfl⟩

/-! ### Claim C2 -/

/-- Claim C2 counterexample: a start request arriving while a job is in
progress is answered with the very same success response an accepted
request gets — the state is left unchanged, but no JobConflict outcome is
reported to the caller. -/
theorem busyStartRespondsSuccess :
    handleMessage ⟨true, Option.none⟩ baseEnv
        (Request.organizeTabsAndClose (some true)) =
      (⟨true, Option.none⟩, Resp.success true) ∧
    (handleMessage ⟨false, Option.none⟩ baseEnv
        (Request.organizeTabsAndClose (some true))).2 = Resp.success true := by
  exact ⟨rfl, rfl⟩

/-- Claim C2 (amended): a start request (organize, close-only or undo)
arriving while a job is in progress is rejected before any mutation — the
job state and the journal are returned unchanged — but the listener still
answers success true, indistinguishable from an accepted request; no
JobConflict outcome reaches the caller. -/
theorem startWhileBusySilentlyIgnored :
    ∀ (st : BgState) (env : Env) (o : Option Bool),
      st.isProcessing = true →
      handleMessage st env (Request.organizeTabsAndClose o) =
        (st, Resp.success true) ∧
      handleMessage st env Request.closeLowImportance =
        (st, Resp.success true) ∧
      handleMessage st env Request.undoLastAction =
        (st, Resp.success true) := by
  intro st env o h
  refine ⟨?_, ?_, ?_⟩ <;>
    simp [handleMessage, organizeTabsAndCloseRun, closeLowImportanceRun,
      undoLastActionRun, h]

/-- Witness for the amended C2 theorem at a concrete busy state. -/
theorem startWhileBusySilentlyIgnored_witness :
    handleMessage ⟨true, Option.none⟩ baseEnv
        (Request.organizeTabsAndClose (some false)) =
      (⟨true, Option.none⟩, Resp.success true) ∧
    handleMessage ⟨true, Option.none⟩ baseEnv Request.closeLowImportance =
      (⟨true, Option.none⟩, Resp.success true) ∧
    handleMessage ⟨true, Option.none⟩ baseEnv Request.undoLastAction =
      (⟨true, Option.none⟩, Resp.success true) :=
  startWhileBusySilentlyIgnored ⟨true, Option.none⟩ baseEnv (some false) rfl

/-! ### Claim C3 -/

/-- Claim C3 (confirmed): whenever the HTTP request fails or no JSON object
can be recovered from the response text (neither a direct parse nor the
brace-to-brace retry), each of the three adapters resolves with exactly the
fallback: no removals, one purple "All Tabs" group over all input ids, and
the provider-specific error rationale. -/
theorem providerErrorFallback :
    ∀ (httpOk : Bool) (text : List Char)
      (jsonParse : List Char → Option RawAnalysis) (ids : List Nat),
      (httpOk = false ∨ parseWithRecovery jsonParse text = Option.none) →
      analyzeTabsWithGeminiRun httpOk text jsonParse ids =
        ⟨[], [⟨"All Tabs", "purple", ids⟩],
          "Gemini error - basic grouping applied"⟩ ∧
      analyzeTabsWithOpenAIRun httpOk text jsonParse ids =
        ⟨[], [⟨"All Tabs", "purple", ids⟩],
          "OpenAI error - basic grouping applied"⟩ ∧
      analyzeTabsWithClaudeRun httpOk text jsonParse ids =
        ⟨[], [⟨"All Tabs", "purple", ids⟩],
          "Claude error - basic grouping applied"⟩ := by
  intro httpOk text jp ids h
  rcases h with h | h
  · subst h; exact ⟨rfl, rfl, rfl⟩
  · by_cases hh : httpOk
    · simp [analyzeTabsWithGeminiRun, analyzeTabsWithOpenAIRun,
        analyzeTabsWithClaudeRun, hh, h, fallbackAnalysis]
    · simp [analyzeTabsWithGeminiRun, analyzeTabsWithOpenAIRun,
        analyzeTabsWithClaudeRun, hh, fallbackAnalysis]

/-- Witness for C3: an HTTP failure on a concrete body. -/
theorem providerErrorFallback_witness :
    analyzeTabsWithGeminiRun false [] (fun _ => Option.none) [1, 2] =
      ⟨[], [⟨"All Tabs", "purple", [1, 2]⟩],
        "Gemini error - basic grouping applied"⟩ ∧
    analyzeTabsWithOpenAIRun false [] (fun _ => Option.none) [1, 2] =
      ⟨[], [⟨"All Tabs", "purple", [1, 2]⟩],
        "OpenAI error - basic grouping applied"⟩ ∧
    analyzeTabsWithClaudeRun false [] (fun _ => Option.none) [1, 2] =
      ⟨[], [⟨"All Tabs", "purple", [1, 2]⟩],
        "Claude error - basic grouping applied"⟩ :=
  providerErrorFallback false [] (fun _ => Option.none) [1, 2] (Or.inl rfl)

/-! ### Claim C4 -/

/-- A plausible organize-job trace: 2 tabs, extraction completes, the
analysis proposes 2 closings and no groups, then the first tab closes. -/
def traceC4 : List Msg :=
  [Msg.start, Msg.tabsCollected 2, Msg.extractProgress 1,
   Msg.extractProgress 2, Msg.aiRequest, Msg.aiResponse 2 0,
   Msg.closingProgress 1 2]

/-- A displayed-percentage sequence is non-decreasing. -/
def nonDecreasing : List ℤ → Bool
  | [] => true
  | [_] => true
  | a :: b :: t => (decide (a ≤ b)) && nonDecreasing (b :: t)

/-- Evaluation of the C4 trace: the displayed percentages, in order. -/
theorem traceC4_displays :
    (popupRun initProg traceC4).2 = [40, 40, 65, 90, 95, 100, 90] := by
  simp only [traceC4, popupRun, popupStep, initProg]
  norm_num [computePercent, setPercentValue, jsRound]

/-- Claim C4 counterexample: the displayed percentages of this job trace
are 40, 40, 65, 90, 95, 100, 90 — the ai response displays 100 while its
closing total is still the already-complete 0, and the first closing
progress event then drops the display to 90, so the sequence is not
non-decreasing. -/
theorem progressDecreaseTrace :
    (popupRun initProg traceC4).2 = [40, 40, 65, 90, 95, 100, 90] ∧
    nonDecreasing (popupRun initProg traceC4).2 = false := by
  refine ⟨traceC4_displays, ?_⟩
  rw [traceC4_displays]; decide

/-- Claim C4 (amended): the terminal complete and undo-complete events
always display exactly 100 last, but within a job the displayed percentage
can decrease: a stage whose total is still 0 counts as complete, so the ai
response can display 100 before the closing and grouping totals are
installed, and later per-unit progress events display less. -/
theorem progressTerminalHundredNotMonotone :
    (∀ p : ProgState,
        (popupStep p Msg.complete).2.getLast? = some 100 ∧
        (popupStep p Msg.undoComplete).2.getLast? = some 100) ∧
    (∃ (p : ProgState) (msgs : List Msg),
        nonDecreasing (popupRun p msgs).2 = false) := by
  refine ⟨fun p => ⟨rfl, rfl⟩, ⟨initProg, traceC4, ?_⟩⟩
  rw [traceC4_displays]; decide

/-! ### Claim C5 -/

/-- Environment for the C5 counterexample: one inactive tab, a
classification with no removals and one group over tab 1. -/
def envC5 : Env :=
  { baseEnv with
    tabs := [⟨1, "a", "A", 1, 0, false, false⟩],
    analysis := ⟨[], [⟨"G", "blue", [1]⟩], "r"⟩ }

/-- Claim C5 counterexample: an organize run with autoClose requested but
nothing to close removes no tab and creates one group, yet records kind
"organize" (the composite kind) instead of the group-only kind — the kind
follows the requested autoClose flag, not what actually happened. -/
theorem organizeKindWithoutRemovals :
    (organizeTabsAndCloseRun ⟨false, Option.none⟩ (some true) envC5).removedIds
        = [] ∧
    (organizeTabsAndCloseRun ⟨false, Option.none⟩ (some true) envC5).groupedBatches
        = [[1]] ∧
    ((organizeTabsAndCloseRun ⟨false, Option.none⟩ (some true) envC5).state.lastAction.map
        LastAction.type) = some ActionType.organize ∧
    ActionType.organize ≠ ActionType.group := by
  refine ⟨rfl, rfl, rfl, by decide⟩

/-- Claim C5 (amended): the recorded kind is derived from the requested
autoClose flag and from whether any group was actually created — organize
when autoClose was requested and at least one group was created, close when
autoClose was requested and none was, group and none likewise without
autoClose — regardless of whether any removal actually occurred; the
close-only pipeline always records kind close. -/
theorem recordedKindFromRequest :
    ∀ (st : BgState) (env : Env) (o : Option Bool) (b : Bool),
      st.isProcessing = false → env.storageGetOk = true →
      env.queryOk = true → env.storageSetOk = true →
      ((organizeTabsAndCloseRun st o env).state.lastAction.map LastAction.type =
        some (recordedType (o.getD env.storedAutoClose)
          (organizeTabsAndCloseRun st o env).groupedBatches)) ∧
      ((organizeTabsGenericRun st b env).state.lastAction.map LastAction.type =
        some (recordedType b (organizeTabsGenericRun st b env).groupedBatches)) ∧
      ((closeLowImportanceRun st env).state.lastAction.map LastAction.type =
        some ActionType.close) := by
  intro st env o b h1 h2 h3 h4
  refine ⟨?_, ?_, ?_⟩
  · unfold organizeTabsAndCloseRun
    simp [h1, h2, h3, h4]
  · unfold organizeTabsGenericRun
    simp [h1, h3, h4]
  · unfold closeLowImportanceRun
    simp [h1, h2, h3, h4]

/-- Witness for the amended C5 theorem at a concrete run. -/
theorem recordedKindFromRequest_witness :
    ((organizeTabsAndCloseRun ⟨false, Option.none⟩ (some true) envC5).state.lastAction.map
        LastAction.type =
      some (recordedType ((some true).getD envC5.storedAutoClose)
        (organizeTabsAndCloseRun ⟨false, Option.none⟩ (some true) envC5).groupedBatches)) ∧
    ((organizeTabsGenericRun ⟨false, Option.none⟩ false envC5).state.lastAction.map
        LastAction.type =
      some (recordedType false
        (organizeTabsGenericRun ⟨false, Option.none⟩ false envC5).groupedBatches)) ∧
    ((closeLowImportanceRun ⟨false, Option.none⟩ envC5).state.lastAction.map
        LastAction.type = some ActionType.close) :=
  recordedKindFromRequest ⟨false, Option.none⟩ envC5 (some true) false rfl rfl
    rfl rfl

/-! ### Claim C6 -/

/-- Environment for the C6 counterexample: an active current tab 1 and a
second tab 2. -/
def envC6 : Env :=
  { baseEnv with
    tabs := [⟨1, "a", "A", 1, 0, true, false⟩, ⟨2, "b", "B", 1, 1, false, false⟩],
    currentActiveId := some 1 }

/-- Claim C6 counterexample: with a job in progress (isProcessing true) the
debug close-all helper still runs — it closes tab 2 and overwrites the
action journal — refuting the claim that the debug helpers share the
single-flight lock. -/
theorem debugCloseRunsWhileBusy :
    (⟨true, Option.none⟩ : BgState).isProcessing = true ∧
    (debugCloseAllTabsRun ⟨true, Option.none⟩ envC6).removedIds = [2] ∧
    (debugCloseAllTabsRun ⟨true, Option.none⟩ envC6).state.lastAction ≠
      (⟨true, Option.none⟩ : BgState).lastAction := by
  refine ⟨rfl, rfl, by decide⟩

/-- Claim C6 (amended): the debug helpers never consult the single-flight
lock: debugCloseAllTabs removes the same tabs and writes the same journal
record whether or not a job is in progress, and createDebugTabs neither
reads nor writes the worker state at all. -/
theorem debugHelpersIgnoreLock :
    ∀ (la : Option LastAction) (env : Env),
      (debugCloseAllTabsRun ⟨true, la⟩ env).removedIds =
        (debugCloseAllTabsRun ⟨false, la⟩ env).removedIds ∧
      (debugCloseAllTabsRun ⟨true, la⟩ env).state.lastAction =
        (debugCloseAllTabsRun ⟨false, la⟩ env).state.lastAction ∧
      (createDebugTabsRun ⟨true, la⟩ env).2 =
        (createDebugTabsRun ⟨false, la⟩ env).2 ∧
      (∀ st : BgState, (createDebugTabsRun st env).1 = st) := by
  intro la env
  refine ⟨?_, ?_, rfl, fun st => rfl⟩ <;>
  · unfold debugCloseAllTabsRun
    by_cases hq : env.queryOk
    · simp only [hq, Bool.not_true, Bool.false_eq_true, if_false]
      split
      · rfl
      · split <;> rfl
    · simp [hq]

/-! ### Claim C7 -/

/-- Claim C7 (confirmed): undo on an empty journal fails with the
"Nothing to undo." error outcome and returns the state exactly as it was
(no mutation); a successful undo on a non-none record with working storage
clears the journal, so an immediately following undo — under any
environment — fails with the same "Nothing to undo." outcome. -/
theorem undoUnavailableAndClears :
    ∀ (a : LastAction) (env env2 env3 : Env),
      a.type ≠ ActionType.none →
      env2.storageReadOk = true →
      env2.storageClearOk = true →
      (undoLastActionRun ⟨false, Option.none⟩ env).outcome =
        UndoOutcome.nothingToUndo ∧
      (undoLastActionRun ⟨false, Option.none⟩ env).errorMessage =
        some "Nothing to undo." ∧
      (undoLastActionRun ⟨false, Option.none⟩ env).state =
        ⟨false, Option.none⟩ ∧
      (undoLastActionRun ⟨false, some a⟩ env2).outcome =
        UndoOutcome.completed ∧
      (undoLastActionRun ⟨false, some a⟩ env2).state.lastAction =
        Option.none ∧
      (undoLastActionRun (undoLastActionRun ⟨false, some a⟩ env2).state
          env3).outcome = UndoOutcome.nothingToUndo ∧
      (undoLastActionRun (undoLastActionRun ⟨false, some a⟩ env2).state
          env3).errorMessage = some "Nothing to undo." := by
  intro a env env2 env3 ha hr hc
  have hnone :
      (if env.storageReadOk then (Option.none : Option LastAction)
        else Option.none) = Option.none := by
    split <;> rfl
  have h1 : undoLastActionRun ⟨false, Option.none⟩ env =
      ⟨⟨false, Option.none⟩, UndoOutcome.nothingToUndo,
        ["undo_start", "error"], some "Nothing to undo."⟩ := by
    unfold undoLastActionRun
    simp [hnone]
  have h2 : (undoLastActionRun ⟨false, some a⟩ env2).state =
      ⟨false, Option.none⟩ ∧
      (undoLastActionRun ⟨false, some a⟩ env2).outcome =
        UndoOutcome.completed := by
    unfold undoLastActionRun
    simp [hr, hc, ha]
  have hnone3 :
      (if env3.storageReadOk then (Option.none : Option LastAction)
        else Option.none) = Option.none := by
    split <;> rfl
  have h3 : undoLastActionRun ⟨false, Option.none⟩ env3 =
      ⟨⟨false, Option.none⟩, UndoOutcome.nothingToUndo,
        ["undo_start", "error"], some "Nothing to undo."⟩ := by
    unfold undoLastActionRun
    simp [hnone3]
  refine ⟨by rw [h1], by rw [h1], by rw [h1], h2.2, by rw [h2.1], ?_, ?_⟩
  · rw [h2.1, h3]
  · rw [h2.1, h3]

/-- A concrete non-none journal record for the C7 witness. -/
def recC7 : LastAction := ⟨ActionType.close, [⟨"a", 1, 0, false, false⟩], [[1]], 5⟩

/-- Witness for C7 at a concrete record and environment. -/
theorem undoUnavailableAndClears_witness :
    (undoLastActionRun ⟨false, Option.none⟩ baseEnv).outcome =
      UndoOutcome.nothingToUndo ∧
    (undoLastActionRun ⟨false, Option.none⟩ baseEnv).errorMessage =
      some "Nothing to undo." ∧
    (undoLastActionRun ⟨false, Option.none⟩ baseEnv).state =
      ⟨false, Option.none⟩ ∧
    (undoLastActionRun ⟨false, some recC7⟩ baseEnv).outcome =
      UndoOutcome.completed ∧
    (undoLastActionRun ⟨false, some recC7⟩ baseEnv).state.lastAction =
      Option.none ∧
    (undoLastActionRun (undoLastActionRun ⟨false, some recC7⟩ baseEnv).state
        baseEnv).outcome = UndoOutcome.nothingToUndo ∧
    (undoLastActionRun (undoLastActionRun ⟨false, some recC7⟩ baseEnv).state
        baseEnv).errorMessage = some "Nothing to undo." :=
  undoUnavailableAndClears recC7 baseEnv baseEnv baseEnv (by decide) rfl rfl

/-! ### Claim C8 -/

/-- Claim C8 (confirmed): from an idle state, every pipeline — interactive
organize, close-only, the automatic-trigger pipeline and undo — ends with
the in-progress flag cleared, for every environment, i.e. on every exit
path including storage and query failures. -/
theorem lockAlwaysReleased :
    ∀ (st : BgState) (env : Env) (o : Option Bool) (b : Bool),
      st.isProcessing = false →
      (organizeTabsAndCloseRun st o env).state.isProcessing = false ∧
      (closeLowImportanceRun st env).state.isProcessing = false ∧
      (organizeTabsGenericRun st b env).state.isProcessing = false ∧
      (undoLastActionRun st env).state.isProcessing = false := by
  intro st env o b h
  refine ⟨?_, ?_, ?_, ?_⟩
  · unfold organizeTabsAndCloseRun
    simp only [h, Bool.false_eq_true, if_false]
    split <;> rfl
  · unfold closeLowImportanceRun
    simp only [h, Bool.false_eq_true, if_false]
    split <;> rfl
  · unfold organizeTabsGenericRun
    simp only [h, Bool.false_eq_true, if_false]
    split <;> rfl
  · unfold undoLastActionRun
    simp only [h, Bool.false_eq_true, if_false]
    split
    · rfl
    · split <;> rfl

/-- Witness for C8: an idle start with an environment whose storage and
query calls fail, exercising the error exit path. -/
def envC8 : Env := { baseEnv with storageGetOk := false, queryOk := false }

/-- Witness for C8 at a concrete idle state and failing environment. -/
theorem lockAlwaysReleased_witness :
    (organizeTabsAndCloseRun ⟨false, Option.none⟩ (some true) envC8).state.isProcessing
        = false ∧
    (closeLowImportanceRun ⟨false, Option.none⟩ envC8).state.isProcessing
        = false ∧
    (organizeTabsGenericRun ⟨false, Option.none⟩ true envC8).state.isProcessing
        = false ∧
    (undoLastActionRun ⟨false, Option.none⟩ envC8).state.isProcessing
        = false :=
  lockAlwaysReleased ⟨false, Option.none⟩ envC8 (some true) true rfl

/-! ### Claim C9 -/

/-- Claim C9 (confirmed): in every adapter, when the body does not parse
directly but its first opening brace lies strictly before its last closing
brace, the slice between them (inclusive) is parsed instead, and a
successful slice parse is used — after the array sanity checks — with no
fallback. -/
theorem substringRecoveryUsed :
    ∀ (text : List Char) (jsonParse : List Char → Option RawAnalysis)
      (r : RawAnalysis) (ids : List Nat) (s e : Nat),
      jsonParse text = Option.none →
      firstBrace text = some s →
      lastBrace text = some e →
      s < e →
      jsonParse ((text.drop s).take (e + 1 - s)) = some r →
      analyzeTabsWithGeminiRun true text jsonParse ids = sanitizeAnalysis r ∧
      analyzeTabsWithOpenAIRun true text jsonParse ids = sanitizeAnalysis r ∧
      analyzeTabsWithClaudeRun true text jsonParse ids = sanitizeAnalysis r := by
  intro text jp r ids s e h1 h2 h3 h4 h5
  have hslice : extractJsonSlice text = some ((text.drop s).take (e + 1 - s)) := by
    unfold extractJsonSlice
    rw [h2, h3]
    simp [h4]
  have hrec : parseWithRecovery jp text = some r := by
    unfold parseWithRecovery
    rw [h1, hslice]
    simp [h5]
  refine ⟨?_, ?_, ?_⟩ <;>
    simp [analyzeTabsWithGeminiRun, analyzeTabsWithOpenAIRun,
      analyzeTabsWithClaudeRun, hrec]

/-- C9 witness body: a brace pair surrounded by junk. -/
def wText : List Char := ['x', lbrace, rbrace]

/-- C9 witness parse result. -/
def wRaw : RawAnalysis := ⟨some [3], some [], "ok"⟩

/-- C9 witness parser: succeeds exactly on the brace-to-brace slice. -/
def wParse (cs : List Char) : Option RawAnalysis :=
  if cs = [lbrace, rbrace] then some wRaw else Option.none

/-- Witness for C9 at a concrete body and parser. -/
theorem substringRecoveryUsed_witness :
    analyzeTabsWithGeminiRun true wText wParse [7] = sanitizeAnalysis wRaw ∧
    analyzeTabsWithOpenAIRun true wText wParse [7] = sanitizeAnalysis wRaw ∧
    analyzeTabsWithClaudeRun true wText wParse [7] = sanitizeAnalysis wRaw :=
  substringRecoveryUsed wText wParse wRaw [7] 1 2 (by decide) (by decide)
    (by decide) (by decide) (by decide)

/-! ### Claim C10 -/

/-- Claim C10 (confirmed): undo rejects a journal record of kind none
exactly like a missing record — same "Nothing to undo." error outcome —
and leaves the journal unchanged in both cases. -/
theorem undoRejectsKindNone :
    ∀ (env : Env) (a : LastAction), a.type = ActionType.none →
      (undoLastActionRun ⟨false, some a⟩ env).outcome =
        UndoOutcome.nothingToUndo ∧
      (undoLastActionRun ⟨false, some a⟩ env).errorMessage =
        some "Nothing to undo." ∧
      (undoLastActionRun ⟨false, some a⟩ env).state.lastAction = some a ∧
      (undoLastActionRun ⟨false, Option.none⟩ env).outcome =
        UndoOutcome.nothingToUndo ∧
      (undoLastActionRun ⟨false, Option.none⟩ env).errorMessage =
        some "Nothing to undo." := by
  intro env a ha
  unfold undoLastActionRun
  by_cases hr : env.storageReadOk
  · simp [hr, ha]
  · simp [hr]

/-- A kind-none journal record for the C10 witness. -/
def recC10 : LastAction := ⟨ActionType.none, [], [], 0⟩

/-- Witness for C10 at a concrete kind-none record. -/
theorem undoRejectsKindNone_witness :
    (undoLastActionRun ⟨false, some recC10⟩ baseEnv).outcome =
      UndoOutcome.nothingToUndo ∧
    (undoLastActionRun ⟨false, some recC10⟩ baseEnv).errorMessage =
      some "Nothing to undo." ∧
    (undoLastActionRun ⟨false, some recC10⟩ baseEnv).state.lastAction =
      some recC10 ∧
    (undoLastActionRun ⟨false, Option.none⟩ baseEnv).outcome =
      UndoOutcome.nothingToUndo ∧
    (undoLastActionRun ⟨false, Option.none⟩ baseEnv).errorMessage =
      some "Nothing to undo." :=
  undoRejectsKindNone baseEnv recC10 rfl

end TabOrganizer
